import Mathlib

/-!
Verification of the polling-utils adaptor library.

This file gives a shallow embedding, in Lean, of the Rust sources of the
repository (src/lib.rs, src/ping.rs, src/ping/eventfd.rs, src/ping/pipe.rs,
src/ping/iocp.rs, src/future.rs, src/channel.rs, src/timer.rs) and proves
properties of the embedded definitions.

Modelling conventions:
- Methods taking `&mut self` and returning `io::Result<()>` become functions
  `State -> IOResult x State` (the mutated state is returned even on error,
  exactly as the Rust borrow leaves it).
- Results of calls into the external `Poller` collaborator (add_with_mode,
  modify_with_mode, delete) are passed in as `IOResult` parameters, since the
  Poller is out of scope for the library.
- Machine integers become `Nat`; instants and durations are modelled in
  nanoseconds.
-/

namespace PollingUtils

/-- Result of a fallible operation, mirroring io::Result<()> (kind collapsed
into the message string). -/
inductive IOResult where
  | ok
  | err (msg : String)
  deriving DecidableEq, Repr

/-- An Event is an opaque readiness descriptor with a key and interest flags.
Translated from the polling crate re-export used by src/lib.rs. -/
structure Event where
  key : Nat
  readable : Bool
  writable : Bool
  deriving DecidableEq, Repr

/-- PollMode from the polling crate. The Rust enum is non-exhaustive, which is
why src/ping/iocp.rs has a wildcard match arm; the constructor `unknownMode`
stands for any variant outside the four known ones. -/
inductive PollMode where
  | oneshot
  | level
  | edge
  | edgeOneshot
  | unknownMode
  deriving DecidableEq, Repr

/-- Interest, from src/lib.rs lines 64-68: the last registered event and mode. -/
structure Interest where
  event : Event
  mode : PollMode
  deriving DecidableEq, Repr

/-- State of Socket<T> (src/lib.rs lines 56-62): only the optional Interest is
observable; the wrapped handle T plays no role in the registration logic. -/
structure SocketState where
  interest : Option Interest
  deriving DecidableEq, Repr

/-- Socket::register (src/lib.rs lines 99-105): store the Interest, then call
poller.add_with_mode. The poller outcome `addResult` is an input; it is
returned unchanged, and the Interest is recorded before the call. -/
def socketRegister (_s : SocketState) (ev : Event) (m : PollMode)
    (addResult : IOResult) : IOResult × SocketState :=
  (addResult, { interest := some { event := ev, mode := m } })

/-- Socket::reregister (src/lib.rs lines 107-113): store the Interest, then
call poller.modify_with_mode. -/
def socketReregister (_s : SocketState) (ev : Event) (m : PollMode)
    (modifyResult : IOResult) : IOResult × SocketState :=
  (modifyResult, { interest := some { event := ev, mode := m } })

/-- Socket::deregister (src/lib.rs lines 115-121): if interest.take() was Some,
call poller.delete and return its result; otherwise return Ok without touching
the poller. The Bool records whether poller.delete was called. -/
def socketDeregister (s : SocketState) (deleteResult : IOResult) :
    IOResult × SocketState × Bool :=
  match s.interest with
  | some _ => (deleteResult, { interest := none }, true)
  | none => (.ok, s, false)

/-- Socket::handle_event (src/lib.rs lines 123-125): a pure no-op. -/
def socketHandleEvent (s : SocketState) : IOResult × SocketState :=
  (.ok, s)

/-- C6: Socket::deregister without recorded Interest returns Ok and does not
call poller.delete; with Interest recorded it clears the Interest and calls
delete exactly once; two consecutive deregister calls (with a well-behaved
poller) both succeed and leave no registration. -/
theorem socket_deregister_idempotent (s : SocketState) (dr : IOResult) :
    (s.interest = none → socketDeregister s dr = (.ok, s, false)) ∧
    (∀ i, s.interest = some i →
      socketDeregister s dr = (dr, { interest := none }, true)) ∧
    ((socketDeregister s .ok).1 = .ok ∧
      socketDeregister (socketDeregister s .ok).2.1 .ok =
        (.ok, { interest := none }, false)) := by
  obtain ⟨(_ | i)⟩ := s <;>
    simp [socketDeregister]

/-- Witness for C6: a socket with recorded Interest, deregistered against a
poller whose delete succeeds, clears the Interest and calls delete once. -/
theorem socket_deregister_idempotent_witness :
    socketDeregister { interest := some { event := ⟨0, true, false⟩, mode := .oneshot } } .ok =
      (.ok, { interest := none }, true) :=
  (socket_deregister_idempotent
      { interest := some { event := ⟨0, true, false⟩, mode := .oneshot } } .ok).2.1
    { event := ⟨0, true, false⟩, mode := .oneshot } rfl

/-- C9: after Socket::register or Socket::reregister returns, whether with Ok
or with the error from the poller, the stored Interest is exactly the event
and mode that were passed: the Interest is written before poller.add_with_mode
or poller.modify_with_mode is attempted, so a failed registration still leaves
the Socket marked registered, and a subsequent deregister calls poller.delete. -/
theorem socket_register_records_interest (s : SocketState) (ev : Event)
    (m : PollMode) (r : IOResult) :
    (socketRegister s ev m r).2.interest = some { event := ev, mode := m } ∧
    (socketRegister s ev m r).1 = r ∧
    (socketReregister s ev m r).2.interest = some { event := ev, mode := m } ∧
    (socketReregister s ev m r).1 = r ∧
    (socketDeregister (socketRegister s ev m r).2 .ok).2.2 = true := by
  simp [socketRegister, socketReregister, socketDeregister]

/-! ## Ping (Unix backends, src/ping.rs + src/ping/eventfd.rs, src/ping/pipe.rs)

On Linux the Ping wraps an eventfd in SEMAPHORE mode; on other Unix systems it
wraps a pipe. At this level of abstraction the two behave the same way: the
kernel object holds a count of unconsumed notification tokens (eventfd counter
value, or bytes sitting in the pipe), notify adds one token, handle_event
consumes one token and then delegates to the no-op Socket::handle_event. The
registration half is exactly the Socket logic on the read end. -/

/-- State of a Unix Ping: the number of pending notification tokens in the
kernel object, and the Socket wrapping its read end. -/
structure PingState where
  pending : Nat
  socket : SocketState
  deriving DecidableEq, Repr

/-- Notifier::notify (src/ping/eventfd.rs lines 75-80 / src/ping/pipe.rs lines
67-72): write one token into the kernel object. -/
def notifierNotify (p : PingState) : PingState :=
  { p with pending := p.pending + 1 }

/-- Ping::register (src/ping/eventfd.rs lines 46-53 / pipe.rs lines 49-51):
delegate to Socket::register on the read end. -/
def pingRegister (p : PingState) (ev : Event) (m : PollMode)
    (addResult : IOResult) : IOResult × PingState :=
  match socketRegister p.socket ev m addResult with
  | (r, sock) => (r, { p with socket := sock })

/-- Ping::reregister: delegate to Socket::reregister on the read end. -/
def pingReregister (p : PingState) (ev : Event) (m : PollMode)
    (modifyResult : IOResult) : IOResult × PingState :=
  match socketReregister p.socket ev m modifyResult with
  | (r, sock) => (r, { p with socket := sock })

/-- Ping::deregister: delegate to Socket::deregister on the read end. -/
def pingDeregister (p : PingState) (deleteResult : IOResult) :
    IOResult × PingState × Bool :=
  match socketDeregister p.socket deleteResult with
  | (r, sock, called) => (r, { p with socket := sock }, called)

/-- Ping::handle_event (src/ping/eventfd.rs lines 68-72 / pipe.rs lines 61-64):
read one token from the kernel object, then delegate to the no-op
Socket::handle_event. With no token pending, the nonblocking eventfd read
fails with EAGAIN (the blocking pipe read would not return at all; both are
collapsed into the error case here, which no claim depends on). -/
def pingHandleEvent (p : PingState) : IOResult × PingState :=
  match p.pending with
  | 0 => (.err "EAGAIN", p)
  | n + 1 => (.ok, { p with pending := n })

/-! ## PollFutureWithArg (src/future.rs)

PollFutureWithArg owns a Ping, a Waker built over the Ping notifier, and the
wrapped future. The embedding instruments the state with `polls`, the number
of times future.poll_with_arg has been invoked, and represents the stored
Waker by the identity `waker` so that the context built for a poll can be
compared with it. External calls made by a method are logged in order. -/

/-- External calls a PollFutureWithArg method can make, in order. -/
inductive Action where
  | pollerAdd
  | pollerModify
  | wake
  deriving DecidableEq, Repr

/-- State of PollFutureWithArg (src/future.rs lines 37-51). -/
structure PollFutureState where
  ping : PingState
  polls : Nat
  waker : Nat
  deriving DecidableEq, Repr

/-- PollFutureWithArg::register (src/future.rs lines 127-139): register the
Ping; if that succeeds, call waker.wake_by_ref() once, whose wake action is
Notifier::notify on the Ping notifier. On failure the waker is not invoked. -/
def pollFutureRegister (s : PollFutureState) (ev : Event) (m : PollMode)
    (addResult : IOResult) : IOResult × PollFutureState × List Action :=
  match pingRegister s.ping ev m addResult with
  | (.ok, p) => (.ok, { s with ping := notifierNotify p }, [.pollerAdd, .wake])
  | (.err e, p) => (.err e, { s with ping := p }, [.pollerAdd])

/-- PollFutureWithArg::reregister (src/future.rs lines 141-149): delegate to
the Ping only; no wake. -/
def pollFutureReregister (s : PollFutureState) (ev : Event) (m : PollMode)
    (modifyResult : IOResult) : IOResult × PollFutureState × List Action :=
  match pingReregister s.ping ev m modifyResult with
  | (r, p) => (r, { s with ping := p }, [.pollerModify])

/-- PollFutureWithArg::handle_event (src/future.rs lines 156-164): delegate to
Ping::handle_event and nothing else; in particular the stored future is not
polled here. -/
def pollFutureHandleEvent (s : PollFutureState) : IOResult × PollFutureState :=
  match pingHandleEvent s.ping with
  | (r, p) => (r, { s with ping := p })

/-- PollFutureWithArg::poll (src/future.rs lines 113-117): build a context
from the stored waker and poll the future once with it. Returns the updated
state and the waker identity the context was built from. -/
def pollFuturePoll (s : PollFutureState) : PollFutureState × Nat :=
  ({ s with polls := s.polls + 1 }, s.waker)

/-- Counterexample for C2: handle_event on a PollFuture with one pending
notification succeeds, but the stored future is polled zero times in the
process, not exactly once as claimed (the poll counter moves only through the
separate poll accessor). -/
theorem pollfuture_handle_event_no_poll_cex :
    (pollFutureHandleEvent ⟨⟨1, ⟨some ⟨⟨0, true, false⟩, .level⟩⟩⟩, 0, 7⟩).1 = .ok ∧
    (pollFutureHandleEvent ⟨⟨1, ⟨some ⟨⟨0, true, false⟩, .level⟩⟩⟩, 0, 7⟩).2.polls = 0 ∧
    (pollFutureHandleEvent ⟨⟨1, ⟨some ⟨⟨0, true, false⟩, .level⟩⟩⟩, 0, 7⟩).2.polls ≠ 0 + 1 ∧
    (pollFuturePoll ⟨⟨1, ⟨some ⟨⟨0, true, false⟩, .level⟩⟩⟩, 0, 7⟩).1.polls = 0 + 1 := by
  decide

/-- C2 (amended): handle_event only delegates to the inner Ping, draining one
notification token; it never polls the stored future. The future is polled
through the separate poll accessor, which polls exactly once per call with a
context built from the stored Waker. -/
theorem pollfuture_handle_event_delegates_to_ping (s : PollFutureState) :
    (pollFutureHandleEvent s).1 = (pingHandleEvent s.ping).1 ∧
    (pollFutureHandleEvent s).2.ping = (pingHandleEvent s.ping).2 ∧
    (pollFutureHandleEvent s).2.polls = s.polls ∧
    (pollFutureHandleEvent s).2.waker = s.waker ∧
    (pollFuturePoll s).1.polls = s.polls + 1 ∧
    (pollFuturePoll s).2 = s.waker := by
  rcases h : pingHandleEvent s.ping with ⟨r, p⟩
  simp [pollFutureHandleEvent, pollFuturePoll, h]

/-- C5: whenever PollFutureWithArg::register returns Ok, the stored Waker has
been invoked exactly once — its wake action Notifier::notify adds exactly one
notification token — immediately after the Ping registration (call trace
[pollerAdd, wake]); when the Ping registration fails, the Waker is not
invoked and the token count is unchanged (call trace [pollerAdd]). -/
theorem pollfuture_register_wakes_once (s : PollFutureState) (ev : Event)
    (m : PollMode) (r : IOResult) :
    (r = .ok → pollFutureRegister s ev m r =
      (.ok,
        { ping := { pending := s.ping.pending + 1,
                    socket := { interest := some { event := ev, mode := m } } },
          polls := s.polls, waker := s.waker },
        [.pollerAdd, .wake])) ∧
    (∀ e, r = .err e → pollFutureRegister s ev m r =
      (.err e,
        { ping := { pending := s.ping.pending,
                    socket := { interest := some { event := ev, mode := m } } },
          polls := s.polls, waker := s.waker },
        [.pollerAdd])) := by
  constructor
  · rintro rfl
    simp [pollFutureRegister, pingRegister, socketRegister, notifierNotify]
  · rintro e rfl
    simp [pollFutureRegister, pingRegister, socketRegister]

/-- Witness for C5: a successful registration of a fresh PollFuture adds one
notification token right after the Ping is registered. -/
theorem pollfuture_register_wakes_once_witness :
    pollFutureRegister ⟨⟨0, ⟨none⟩⟩, 0, 7⟩ ⟨0, true, false⟩ .level .ok =
      (.ok,
        { ping := { pending := 0 + 1,
                    socket := { interest := some { event := ⟨0, true, false⟩, mode := .level } } },
          polls := 0, waker := 7 },
        [.pollerAdd, .wake]) :=
  (pollfuture_register_wakes_once ⟨⟨0, ⟨none⟩⟩, 0, 7⟩ ⟨0, true, false⟩ .level .ok).1 rfl

/-! ## TimerWheel and Timer (src/timer.rs)

Instants and durations are measured in nanoseconds. Duration::MAX is
u64::MAX seconds plus 999_999_999 nanoseconds. A Rust Instant on Unix wraps a
timespec with an i64 seconds field, so Instant::checked_add returns None as
soon as the sum leaves [0, i64::MAX seconds + 999_999_999 ns]; monotonic
instants themselves are nonnegative. The BTreeMap of the wheel is modelled as
a list of ((deadline, id), notifier) entries with pairwise distinct keys; the
Notifier of a timer is identified by the id of the Ping that backs it, which
here coincides with the timer id since interval_at creates one fresh Ping per
timer. -/

/-- Duration::MAX in nanoseconds. -/
def durationMax : Nat := (2 ^ 64 - 1) * 1000000000 + 999999999

/-- Largest representable Instant, in nanoseconds since the monotonic epoch. -/
def instantMax : Nat := (2 ^ 63 - 1) * 1000000000 + 999999999

/-- Instant::checked_add: None on overflow of the underlying timespec. -/
def instantCheckedAdd (t d : Nat) : Option Nat :=
  if t + d ≤ instantMax then some (t + d) else none

/-- State of TimerWheel (src/timer.rs lines 11-17). -/
structure TimerWheel where
  timers : List ((Nat × Nat) × Nat)
  last_id : Nat
  deriving DecidableEq, Repr

/-- A Timer (src/timer.rs lines 21-33); its Ping is represented by the
notifier id stored in the wheel. -/
structure Timer where
  id : Nat
  deadline : Option Nat
  interval : Nat
  deriving DecidableEq, Repr

/-- TimerWheel::new (src/timer.rs lines 43-48). -/
def timerWheelNew : TimerWheel := { timers := [], last_id := 1 }

/-- BTreeMap::insert on the entry list: replace any entry with the same key. -/
def wheelInsert (k : Nat × Nat) (v : Nat) (l : List ((Nat × Nat) × Nat)) :
    List ((Nat × Nat) × Nat) :=
  l.filter (fun e => decide (e.1 ≠ k)) ++ [(k, v)]

/-- Timer::never (src/timer.rs lines 129-136). -/
def Timer.never : Timer := { id := 0, deadline := none, interval := durationMax }

/-- TimerWheel::interval_at (src/timer.rs lines 69-89): assign the next id,
set the deadline to start.checked_add(interval), and insert the notifier at
key (deadline, id) when the deadline exists. The fallible Ping::new is taken
on its success path, as no claim concerns eventfd creation failure. -/
def interval_at (w : TimerWheel) (start : Nat) (ivl : Nat) :
    Timer × TimerWheel :=
  let t : Timer := { id := w.last_id, deadline := instantCheckedAdd start ivl,
                     interval := ivl }
  let w2 : TimerWheel := { w with last_id := w.last_id + 1 }
  match t.deadline with
  | some d => (t, { w2 with timers := wheelInsert (d, t.id) t.id w2.timers })
  | none => (t, w2)

/-- TimerWheel::at (src/timer.rs lines 59-61): interval_at with
interval = Duration::MAX. -/
def wheelAt (w : TimerWheel) (deadline : Nat) : Timer × TimerWheel :=
  interval_at w deadline durationMax

/-- TimerWheel::after (src/timer.rs lines 51-56): at(now + duration) when the
addition does not overflow, Timer::never otherwise. -/
def wheelAfter (w : TimerWheel) (now duration : Nat) : Timer × TimerWheel :=
  match instantCheckedAdd now duration with
  | some deadline => wheelAt w deadline
  | none => (Timer.never, w)

/-- TimerWheel::interval (src/timer.rs lines 64-66). -/
def wheelInterval (w : TimerWheel) (now ivl : Nat) : Timer × TimerWheel :=
  interval_at w now ivl

/-- Strict lexicographic order on BTreeMap keys (deadline, id), used by
split_off at the key (now, 0). -/
def splitKeyLt (k s : Nat × Nat) : Bool :=
  k.1 < s.1 || (k.1 == s.1 && decide (k.2 < s.2))

/-- Result of TimerWheel::fire_timers: the wheel after removal, the notifier
ids notified in key order, and the returned Option<Duration>. -/
structure FireOutcome where
  wheel : TimerWheel
  notified : List Nat
  next : Option Nat
  deriving DecidableEq, Repr

/-- TimerWheel::fire_timers (src/timer.rs lines 92-124): split the map at the
key (now, 0) — entries strictly below it are expired and removed — compute
the saturating distance from now to the smallest remaining deadline, then
notify every expired notifier. Notifier::notify is taken on its success path,
as in the source a notify error merely aborts the loop early. -/
def fire_timers (w : TimerWheel) (now : Nat) : FireOutcome :=
  let expired := w.timers.filter (fun e => splitKeyLt e.1 (now, 0))
  let remaining := w.timers.filter (fun e => !splitKeyLt e.1 (now, 0))
  let next : Option Nat :=
    match remaining with
    | [] => none
    | e :: rest => some ((rest.foldl (fun m x => Nat.min m x.1.1) e.1.1) - now)
  { wheel := { timers := remaining, last_id := w.last_id },
    notified := expired.map (·.2),
    next := next }

/-- C1 (evaluating the code at the failing input): on an empty wheel at
now = 0, after(1 second) — the addition now + d does not overflow — returns a
timer with no deadline at all, inserts nothing into the wheel, and a later
fire_timers at t = 2 seconds notifies nobody; likewise at(1 second) returns a
timer with no deadline. The deadline recorded by interval_at is
start + Duration::MAX, which overflows Instant for every start, so the doc
comments of after and at (fire once at now + d, fire at this instant) are
contradicted. -/
theorem wheel_after_never_fires :
    (wheelAfter timerWheelNew 0 1000000000).1 = ⟨1, none, durationMax⟩ ∧
    (wheelAfter timerWheelNew 0 1000000000).2 = { timers := [], last_id := 2 } ∧
    fire_timers (wheelAfter timerWheelNew 0 1000000000).2 2000000000 =
      { wheel := { timers := [], last_id := 2 }, notified := [], next := none } ∧
    (wheelAt timerWheelNew 1000000000).1.deadline = none := by
  decide

/-- Counterexample for C3: with two timers at deadlines t1 = 5 and t2 = 10 in
the wheel, fire_timers called exactly at t = t1 = 5 (which satisfies
t1 ≤ t < t2) notifies nothing, removes nothing, and returns Some 0 rather
than Some (t2 - t) = Some 5: an entry exactly at now is not expired. -/
theorem fire_timers_boundary_cex :
    fire_timers { timers := [((5, 1), 101), ((10, 2), 102)], last_id := 3 } 5 =
      { wheel := { timers := [((5, 1), 101), ((10, 2), 102)], last_id := 3 },
        notified := [], next := some 0 } ∧
    (fire_timers { timers := [((5, 1), 101), ((10, 2), 102)], last_id := 3 } 5).notified
      ≠ [101] ∧
    (fire_timers { timers := [((5, 1), 101), ((10, 2), 102)], last_id := 3 } 5).next
      ≠ some 5 := by
  decide

/-- C3 (amended): for two wheel timers with deadlines t1 < t2, fire_timers at
a time t with t1 < t < t2 (strictly after t1) notifies only the notifier of
the t1 timer, removes only its entry, and returns Some (t2 - t). -/
theorem fire_timers_ordering (t1 i1 n1 t2 i2 n2 t lid : Nat)
    (h1 : t1 < t) (h2 : t < t2) :
    fire_timers { timers := [((t1, i1), n1), ((t2, i2), n2)], last_id := lid } t =
      { wheel := { timers := [((t2, i2), n2)], last_id := lid },
        notified := [n1], next := some (t2 - t) } := by
  have e1 : splitKeyLt (t1, i1) (t, 0) = true := by
    simp [splitKeyLt, h1]
  have e2 : splitKeyLt (t2, i2) (t, 0) = false := by
    simp [splitKeyLt]
    omega
  simp [fire_timers, e1, e2]

/-- Witness for C3 (amended): deadlines 5 and 10, fired at t = 7: only the
first timer fires and the wait hint is 3. -/
theorem fire_timers_ordering_witness :
    fire_timers { timers := [((5, 1), 101), ((10, 2), 102)], last_id := 3 } 7 =
      { wheel := { timers := [((10, 2), 102)], last_id := 3 },
        notified := [101], next := some (10 - 7) } :=
  fire_timers_ordering 5 1 101 10 2 102 7 3 (by decide) (by decide)

/-! ## Channel adaptor (src/channel.rs)

The Receiver wraps a PollFuture whose stored future is the async block
receiver.recv().await.ok() over a clone of the async-channel receiver. The
external unbounded channel is modelled as a FIFO queue plus a closed flag;
cloning a receiver shares the same channel, so the stored future and the
inner receiver handle operate on the one channel value carried in the state.
The Ping and waker bookkeeping of the wrapped PollFuture is the PingState
from above; the poll counter and waker identity play no role in these claims
and are omitted from the Receiver state. -/

/-- The external async-channel state: queued values in FIFO order and whether
the channel is closed. -/
structure Channel (α : Type) where
  queue : List α
  closed : Bool
  deriving DecidableEq, Repr

/-- Rust Poll. -/
inductive Poll (α : Type) where
  | ready (v : α)
  | pending
  deriving DecidableEq, Repr

/-- The stored future of the Receiver: either the freshly built
receiver.recv().await.ok() block, not yet resolved, or a future that has
already resolved to a terminal value (polling it again yields the same
value, per the fused behaviour of the boxed async block). -/
inductive RecvFuture (α : Type) where
  | fresh
  | done (v : Option α)
  deriving DecidableEq, Repr

/-- One poll of the stored future against the shared channel: a queued value
resolves to Ready (some v) and consumes it; an empty closed channel resolves
to Ready none; an empty open channel is Pending. -/
def pollRecvFuture (f : RecvFuture α) (c : Channel α) :
    Poll (Option α) × RecvFuture α × Channel α :=
  match f with
  | .done v => (.ready v, .done v, c)
  | .fresh =>
    match c.queue with
    | v :: rest => (.ready (some v), .done (some v), { c with queue := rest })
    | [] =>
      if c.closed then (.ready none, .done none, c)
      else (.pending, .fresh, c)

/-- State of the channel Receiver (src/channel.rs lines 43-46). -/
structure ReceiverState (α : Type) where
  ping : PingState
  storedFuture : RecvFuture α
  chan : Channel α
  deriving DecidableEq, Repr

/-- Receiver::recv (src/channel.rs lines 63-71): one poll_unpin of the
wrapped PollFuture; a Ready value is returned as is, Pending becomes None. -/
def receiverRecv (r : ReceiverState α) : Option α × ReceiverState α :=
  match pollRecvFuture r.storedFuture r.chan with
  | (.ready v, f, c) => (v, { r with storedFuture := f, chan := c })
  | (.pending, f, c) => (none, { r with storedFuture := f, chan := c })

/-- Receiver::reregister (src/channel.rs lines 83-98): delegate to the
PollFuture reregister (which reaches Ping::reregister, hence
Socket::reregister); on success, replace the stored future with a fresh
recv() future built from a clone of the inner receiver — the clone shares
the channel, so the channel component is untouched. On failure the stored
future is left in place. -/
def receiverReregister (r : ReceiverState α) (ev : Event) (m : PollMode)
    (modifyResult : IOResult) : IOResult × ReceiverState α :=
  match pingReregister r.ping ev m modifyResult with
  | (.ok, p) => (.ok, { r with ping := p, storedFuture := .fresh })
  | (.err e, p) => (.err e, { r with ping := p })

/-- Receiver::register (src/channel.rs lines 74-81): delegate to the
PollFuture register, which wakes once after registering the Ping. -/
def receiverRegister (r : ReceiverState α) (ev : Event) (m : PollMode)
    (addResult : IOResult) : IOResult × ReceiverState α :=
  match pingRegister r.ping ev m addResult with
  | (.ok, p) => (.ok, { r with ping := notifierNotify p })
  | (.err e, p) => (.err e, { r with ping := p })

/-- C4: when the poller modify succeeds, Receiver::reregister returns Ok,
the inner Ping has been reregistered with the given event and mode, and the
stored future has been replaced by a fresh recv() future over the shared
channel of the cloned receiver (the channel itself unchanged). -/
theorem receiver_reregister_rebuilds_future {α : Type} (r : ReceiverState α)
    (ev : Event) (m : PollMode) (mr : IOResult) (h : mr = .ok) :
    receiverReregister r ev m mr =
      (.ok,
        { ping := { pending := r.ping.pending,
                    socket := { interest := some { event := ev, mode := m } } },
          storedFuture := .fresh,
          chan := r.chan }) := by
  subst h
  simp [receiverReregister, pingReregister, socketReregister]

/-- Witness for C4: a receiver whose stored future has already resolved gets
a fresh recv() future after a successful reregister. -/
theorem receiver_reregister_rebuilds_future_witness :
    receiverReregister
        (⟨⟨0, ⟨none⟩⟩, .done (some 5), ⟨[8], false⟩⟩ : ReceiverState Nat)
        ⟨0, true, false⟩ .level .ok =
      (.ok,
        { ping := { pending := 0,
                    socket := { interest := some { event := ⟨0, true, false⟩, mode := .level } } },
          storedFuture := .fresh,
          chan := ⟨[8], false⟩ }) :=
  receiver_reregister_rebuilds_future
    (⟨⟨0, ⟨none⟩⟩, .done (some 5), ⟨[8], false⟩⟩ : ReceiverState Nat)
    ⟨0, true, false⟩ .level .ok rfl

/-- C10: Receiver::recv returns None exactly when the poll of the stored
future is Pending or Ready none — the two are indistinguishable through the
public interface — and returns Some v exactly when the poll is
Ready (some v). -/
theorem receiver_recv_none_iff {α : Type} (r : ReceiverState α) :
    ((receiverRecv r).1 = none ↔
      ((pollRecvFuture r.storedFuture r.chan).1 = .pending ∨
       (pollRecvFuture r.storedFuture r.chan).1 = .ready none)) ∧
    (∀ v, (receiverRecv r).1 = some v ↔
      (pollRecvFuture r.storedFuture r.chan).1 = .ready (some v)) := by
  rcases h : pollRecvFuture r.storedFuture r.chan with ⟨pr, f, c⟩
  rcases pr with v | _
  · rcases v with _ | v <;> simp [receiverRecv, h]
  · simp [receiverRecv, h]

/-- Witness for C10: with a queued value 7, recv returns some 7, and on an
empty open channel recv returns none. -/
theorem receiver_recv_none_iff_witness :
    (receiverRecv (⟨⟨0, ⟨none⟩⟩, .fresh, ⟨[7], false⟩⟩ : ReceiverState Nat)).1 = some 7 ∧
    (receiverRecv (⟨⟨0, ⟨none⟩⟩, .fresh, ⟨[], false⟩⟩ : ReceiverState Nat)).1 = none :=
  ⟨((receiver_recv_none_iff
        (⟨⟨0, ⟨none⟩⟩, .fresh, ⟨[7], false⟩⟩ : ReceiverState Nat)).2 7).mpr (by decide),
   (receiver_recv_none_iff
        (⟨⟨0, ⟨none⟩⟩, .fresh, ⟨[], false⟩⟩ : ReceiverState Nat)).1.mpr (by decide)⟩

/-! ## Pipe backend creation flags and notify (src/ping/pipe.rs)

Ping::new (lines 22-43) creates the pipe with pipe_with(PipeFlags::CLOEXEC);
the fallback path creates a plain pipe and then sets only the CLOEXEC fd flag
with fcntl on both ends. Neither path sets O_NONBLOCK on either end.
Notify::notify (lines 67-72) writes the single byte 0 to the write end. The
behaviour of the external POSIX write on a pipe is modelled from its
documented semantics: a one-byte write succeeds while the pipe has free
capacity; on a full pipe it fails with EAGAIN when the descriptor is
nonblocking and otherwise suspends the caller. -/

/-- Flags relevant to pipe creation. -/
inductive PipeFlag where
  | cloexec
  | nonblock
  deriving DecidableEq, Repr

/-- The flags the source passes when creating the Ping pipe: CLOEXEC only, on
both the atomic path (PipeFlags::CLOEXEC) and the fcntl fallback. -/
def pingPipeCreationFlags : List PipeFlag := [.cloexec]

/-- Whether the Ping pipe write end is nonblocking: true only if NONBLOCK is
among the creation flags. -/
def pingPipeNonblock : Bool := pingPipeCreationFlags.contains .nonblock

/-- Outcome of a write to the pipe. -/
inductive WriteOutcome where
  | wrote (n : Nat)
  | eagain
  | blocked
  deriving DecidableEq, Repr

/-- POSIX write of n bytes (n at most PIPE_BUF) to a pipe with free bytes of
capacity left: modelled from the documented semantics of the external write
collaborator. -/
def pipeWrite (nonblock : Bool) (free n : Nat) : WriteOutcome :=
  if n ≤ free then .wrote n
  else if nonblock then .eagain
  else .blocked

/-- Notify::notify on the pipe backend: write one byte with the flags the
Ping pipe was created with. -/
def pipeNotify (free : Nat) : WriteOutcome :=
  pipeWrite pingPipeNonblock free 1

/-- Counterexample for C7: the Ping pipe is created without NONBLOCK, so on a
full pipe (zero free bytes) notify suspends the caller instead of returning
the EAGAIN error. -/
theorem pipe_notify_blocks_cex :
    pingPipeCreationFlags.contains PipeFlag.nonblock = false ∧
    pipeNotify 0 = .blocked ∧
    pipeNotify 0 ≠ .eagain := by
  decide

/-- C7 (amended): the Ping pipe is created with CLOEXEC only, not nonblocking;
notify writes exactly one byte whenever the pipe has room, and on a full pipe
the write blocks the calling thread (EAGAIN would require the NONBLOCK flag,
which the source never sets). -/
theorem pipe_notify_spec (free : Nat) :
    pingPipeNonblock = false ∧
    (1 ≤ free → pipeNotify free = .wrote 1) ∧
    (free = 0 → pipeNotify free = .blocked) := by
  refine ⟨rfl, fun h => ?_, fun h => ?_⟩
  · simp [pipeNotify, pipeWrite, h, pingPipeNonblock, pingPipeCreationFlags]
  · subst h
    decide

/-- Witness for C7 (amended): with one free byte the notify write succeeds. -/
theorem pipe_notify_spec_witness : pipeNotify 1 = .wrote 1 :=
  (pipe_notify_spec 1).2.1 (by decide)

/-! ## IOCP backend (src/ping/iocp.rs)

This is the pre-refactor Windows variant present in the source tree (it is
not wired into src/ping.rs, which only selects the Unix backends, but it is
the code the claim cites). Inner holds the optional Interest, the saturating
notified counter, and the in_port and edge_trigger flags. The weak poller
reference inside Interest is modelled by a liveness flag; wake posts the
completion packet only while the poller is alive. -/

/-- Interest stored by the IOCP Inner (src/ping/iocp.rs lines 41-51): the
completion packet keeps a copy of the event, the weak poller reference is
modelled by whether it still upgrades. -/
structure IocpInterest where
  event : Event
  mode : PollMode
  pollerAlive : Bool
  deriving DecidableEq, Repr

/-- The mutex-guarded Inner (src/ping/iocp.rs lines 22-35). -/
structure IocpInner where
  interest : Option IocpInterest
  notified : Nat
  in_port : Bool
  edge_trigger : Bool
  deriving DecidableEq, Repr

/-- Inner::wake (src/ping/iocp.rs lines 141-155): with Interest set and the
weak poller upgradable, post the packet and set in_port; otherwise silently
succeed. The Bool reports whether a packet was posted. -/
def iocpWake (inner : IocpInner) : IocpInner × Bool :=
  match inner.interest with
  | some i =>
    if i.pollerAlive then ({ inner with in_port := true }, true)
    else (inner, false)
  | none => (inner, false)

/-- Ping::reregister on IOCP (src/ping/iocp.rs lines 77-106): store the
Interest first; Oneshot and Level are the non-edge modes, Edge and
EdgeOneshot the edge modes, and any variant outside the four known ones is
rejected with the unsupported-mode error (with the Interest already stored);
for a non-edge mode with a pending notification and not currently in port,
wake the poller. The Bool reports whether a packet was posted. -/
def iocpReregister (inner0 : IocpInner) (ev : Event) (m : PollMode)
    (pollerAlive : Bool) : IOResult × IocpInner × Bool :=
  let inner : IocpInner :=
    { inner0 with interest := some { event := ev, mode := m, pollerAlive := pollerAlive } }
  let isEdge : Option Bool :=
    match m with
    | .oneshot | .level => some false
    | .edge | .edgeOneshot => some true
    | .unknownMode => none
  match isEdge with
  | none => (.err "unsupported polling mode for IOCP", inner, false)
  | some e =>
    if !e && (!inner.in_port && decide (0 < inner.notified)) then
      match iocpWake inner with
      | (inner2, posted) => (.ok, inner2, posted)
    else (.ok, inner, false)

/-- Ping::register on IOCP (src/ping/iocp.rs lines 68-75): delegates to
reregister. -/
def iocpRegister (inner : IocpInner) (ev : Event) (m : PollMode)
    (pollerAlive : Bool) : IOResult × IocpInner × Bool :=
  iocpReregister inner ev m pollerAlive

/-- Counterexample for C8: the IOCP variant in the source accepts Edge and
EdgeOneshot — reregister returns Ok for both on a fresh Inner — rather than
returning the unsupported-mode error the claim demands. -/
theorem iocp_reregister_edge_ok_cex :
    (iocpReregister ⟨none, 0, false, false⟩ ⟨0, true, false⟩ .edge true).1 = .ok ∧
    (iocpReregister ⟨none, 0, false, false⟩ ⟨0, true, false⟩ .edgeOneshot true).1 = .ok ∧
    (iocpReregister ⟨none, 0, false, false⟩ ⟨0, true, false⟩ .edge true).1 ≠
      .err "unsupported polling mode for IOCP" := by
  decide

/-- C8 (amended): this pre-refactor IOCP variant accepts all four known modes
— Oneshot, Level, Edge, EdgeOneshot each store the Interest and return Ok,
the edge modes skipping the pending-notification repost — and the error
"unsupported polling mode for IOCP" arises only for a mode outside the four
known variants of the non-exhaustive enum, with the Interest nevertheless
already stored; register behaves as reregister. -/
theorem iocp_reregister_mode_policy (inner : IocpInner) (ev : Event)
    (alive : Bool) :
    (iocpReregister inner ev .oneshot alive).1 = .ok ∧
    (iocpReregister inner ev .level alive).1 = .ok ∧
    (iocpReregister inner ev .edge alive).1 = .ok ∧
    (iocpReregister inner ev .edgeOneshot alive).1 = .ok ∧
    (∀ m, (iocpReregister inner ev m alive).2.1.interest =
      some { event := ev, mode := m, pollerAlive := alive }) ∧
    (iocpReregister inner ev .unknownMode alive).1 =
      .err "unsupported polling mode for IOCP" ∧
    (∀ m, iocpRegister inner ev m alive = iocpReregister inner ev m alive) := by
  refine ⟨?_, ?_, rfl, rfl, ?_, rfl, fun _ => rfl⟩
  · simp only [iocpReregister, iocpWake]
    split <;> simp_all
  · simp only [iocpReregister, iocpWake]
    split <;> simp_all
  · intro m
    rcases m <;> simp only [iocpReregister, iocpWake] <;>
      split <;> simp_all <;> split <;> simp_all

end PollingUtils
